import Mathlib

/-!
Verification of the Kraken HTR Streamlit front end (src/app.py and
src/app_streamlit.py) against its natural-language specification.

The development shallowly embeds the parts of the program the claims are
about:

* the pixel threshold function `apply_threshold` (src/app.py lines 113-118),
  modelled pixelwise by `thresholdPoint` and imagewise by `apply_threshold`;
* the image-decode step (grayscale first, RGB retry) of the upload handler
  (src/app_streamlit.py lines 28-32, src/app.py lines 30-34);
* the Run-OCR handler: the CLI attempt via a blocking external process, the
  success / missing-output / non-zero-exit branches, and the Python-API
  fallback entered on a missing executable, trying rpred.recognize and then
  rpred.rpred (src/app_streamlit.py lines 36-105; the nested variant in
  src/app.py lines 143-208 has the same control-flow structure);
* the temporary workspace created by tempfile.mkdtemp, modelled as a list of
  existing paths threaded through the handler.

External effects (the subprocess outcome, the existence and contents of the
output file, the behaviour of the kraken Python API) are inputs of the
embedded handler, packaged in `OcrRequest`.
-/

namespace KrakenApp

/-- Pixelwise threshold from src/app.py line 117:
`gray.point(lambda p: 255 if p > thresh else 0)`. -/
def thresholdPoint (thresh p : Nat) : Nat :=
  if p > thresh then 255 else 0

/-- In-memory PIL image: either a single-channel grayscale bitmap or an RGB
bitmap, each a flat list of pixel values. -/
inductive PILImage where
  | gray (pixels : List Nat)
  | rgb (pixels : List (Nat × Nat × Nat))
deriving DecidableEq, Repr

/-- PIL `Image.convert("L")`: a grayscale image is returned as is, an RGB
image is converted by the ITU-R 601-2 luma transform with truncation. -/
def convertL : PILImage → List Nat
  | .gray ps => ps
  | .rgb ps => ps.map (fun t => (t.1 * 299 + t.2.1 * 587 + t.2.2 * 114) / 1000)

/-- Embedding of `apply_threshold` (src/app.py lines 113-118): convert the
image to grayscale, then map every pixel through the threshold point
function, returning a new single-channel image. -/
def apply_threshold (image : PILImage) (thresh : Nat) : PILImage :=
  PILImage.gray ((convertL image).map (fun p => thresholdPoint thresh p))

/-- Result of running the external process: exit status plus captured
stdout and stderr (subprocess.run with capture_output=True). -/
structure ProcResult where
  exitCode : Nat
  stdout : String
  stderr : String
deriving DecidableEq, Repr

/-- Outcome of attempting to launch the kraken CLI: either the executable
was found and the process ran to termination, or the executable could not
be located on the search path (FileNotFoundError). -/
inductive CliOutcome where
  | ran (r : ProcResult)
  | notFound
deriving DecidableEq, Repr

/-- Value returned by a successful fallback recognition call, as the handler
distinguishes it: a Python list (each element abstracted by its str() form)
or any other value (abstracted by its str() form). -/
inductive Preds where
  | list (strs : List String)
  | single (s : String)
deriving DecidableEq, Repr

/-- Normalisation of the fallback result (src/app_streamlit.py lines 87-90):
`"\n".join([str(p) for p in preds])` when preds is a list, `str(preds)`
otherwise. -/
def normalizePreds : Preds → String
  | .list strs => String.intercalate "\n" strs
  | .single s => s

/-- Outcome of one Run-OCR interaction, one constructor per terminal branch
of the handler. -/
inductive Outcome where
  | cliSuccess (text : String)
  | engineRanEmpty (stdout stderr : String)
  | cliFailed (stdout stderr : String)
  | fallbackSuccess (text : String)
  | fallbackUnavailable (msg : String)
deriving DecidableEq, Repr

/-- One Run-OCR request together with the behaviour of its environment: the
image submitted, the outcome of launching the CLI, the contents of the
expected output file if it exists afterwards, whether the kraken import and
model load succeed, and the behaviour of the two recognition call shapes as
functions of the image list passed to them. -/
structure OcrRequest where
  image : PILImage
  cli : CliOutcome
  outputFile : Option String
  apiSetup : Except String Unit
  recognizeCall : List PILImage → Except String Preds
  rpredCall : List PILImage → Except String Preds

/-- Observable trace of one Run-OCR interaction: the terminal outcome,
whether the fallback path was entered, and the argument lists passed to the
two recognition call shapes (none when a shape was not invoked). -/
structure RunTrace where
  outcome : Outcome
  fallbackAttempted : Bool
  shapeACall : Option (List PILImage)
  shapeBCall : Option (List PILImage)
deriving Repr

/-- The Python-API fallback block (src/app_streamlit.py lines 69-97): import
kraken and load the model; on success call rpred.recognize(model, [image]),
and only if that raises call rpred.rpred(model, [image]); normalise a
returned result; any exception escaping the block is reported with the
install guidance. -/
def runFallback (r : OcrRequest) : RunTrace :=
  match r.apiSetup with
  | .error e => ⟨.fallbackUnavailable e, true, none, none⟩
  | .ok _ =>
    match r.recognizeCall [r.image] with
    | .ok preds => ⟨.fallbackSuccess (normalizePreds preds), true, some [r.image], none⟩
    | .error _ =>
      match r.rpredCall [r.image] with
      | .ok preds => ⟨.fallbackSuccess (normalizePreds preds), true, some [r.image], some [r.image]⟩
      | .error e => ⟨.fallbackUnavailable e, true, some [r.image], some [r.image]⟩

/-- The Run-OCR handler (src/app_streamlit.py lines 55-105): run the CLI
with check=True; on FileNotFoundError enter the fallback; on a non-zero
exit report the CalledProcessError diagnostics; on exit status zero read
the output file if it exists, else report the ran-but-empty failure. -/
def runOcr (r : OcrRequest) : RunTrace :=
  match r.cli with
  | .notFound => runFallback r
  | .ran p =>
    if p.exitCode = 0 then
      match r.outputFile with
      | some t => ⟨.cliSuccess t, false, none, none⟩
      | none => ⟨.engineRanEmpty p.stdout p.stderr, false, none, none⟩
    else
      ⟨.cliFailed p.stdout p.stderr, false, none, none⟩

/-- Text placed in the Recognized text area, when any: only the two success
branches call st.text_area with recognized text. -/
def displayedText : Outcome → Option String
  | .cliSuccess t => some t
  | .fallbackSuccess t => some t
  | _ => none

/-- Guidance message shown with a fallback failure
(src/app_streamlit.py line 97, quotes elided). -/
def guidanceMsg : String :=
  "Make sure the kraken package is installed (pip install kraken) or the kraken CLI is available in PATH"

/-- Error and diagnostic messages written for a failure outcome, in display
order, mirroring the st.error / st.write / st.info calls of each branch. -/
def errorMessages : Outcome → List String
  | .engineRanEmpty out err => ["Kraken CLI ran but no output file created.", out, err]
  | .cliFailed out err => ["Kraken CLI failed", out, err]
  | .fallbackUnavailable e => ["Failed to use Kraken Python API: " ++ e, guidanceMsg]
  | _ => []

/-- Behaviour of the image-decode environment for one upload: the result of
Image.open(...).convert("L") and the result of Image.open(...).convert("RGB"),
each either an image or a raised exception message. -/
structure UploadEnv where
  grayDecode : Except String PILImage
  rgbDecode : Except String PILImage

/-- The upload decode step (src/app_streamlit.py lines 28-32, src/app.py
lines 30-34): try the grayscale decode; on any exception retry as RGB. The
RGB retry is not guarded, so its exception propagates out of the script. -/
def decodeUpload (env : UploadEnv) : Except String PILImage :=
  match env.grayDecode with
  | .ok img => .ok img
  | .error _ => env.rgbDecode

/-- What the page shows after the decode step: the bitmap displayed by
st.image (if any), whether the Run OCR step is reachable, and the error
message surfaced when the script aborted on an exception. -/
def renderAfterDecode : Except String PILImage → Option PILImage × Bool × Option String
  | .ok img => (some img, true, none)
  | .error e => (none, false, some e)

/-- Path of the temporary workspace directory returned by
tempfile.mkdtemp, abstracted as a fixed fresh name. -/
def tmpdirPath : String := "/tmp/krakenws"

/-- Path of the serialized input image inside the workspace. -/
def inputPath : String := tmpdirPath ++ "/input.png"

/-- Path of the expected CLI output file inside the workspace. -/
def outputPath : String := tmpdirPath ++ "/output.txt"

/-- The Run-OCR handler together with its filesystem effects: mkdtemp
creates the workspace, image.save writes the input file, the CLI may write
the output file; no branch of the handler removes anything. The filesystem
is a list of existing paths. -/
def runOcrFS (r : OcrRequest) (fs : List String) : RunTrace × List String :=
  let fs1 := inputPath :: tmpdirPath :: fs
  let fs2 := match r.outputFile with
    | some _ => outputPath :: fs1
    | none => fs1
  (runOcr r, fs2)

end KrakenApp

namespace KrakenApp

/-- C6: for every cutoff c and pixel intensity v in [0,255], the threshold
maps v to 255 when v > c and to 0 otherwise; with cutoff 255 every pixel in
range maps to 0, and with cutoff 0 every positive v maps to 255. -/
theorem thresholdPoint_spec :
    (∀ c v : Nat, c ≤ 255 → v ≤ 255 →
      (v > c → thresholdPoint c v = 255) ∧ (v ≤ c → thresholdPoint c v = 0)) ∧
    (∀ v : Nat, v ≤ 255 → thresholdPoint 255 v = 0) ∧
    (∀ v : Nat, 0 < v → thresholdPoint 0 v = 255) := by
  refine ⟨fun c v _ _ => ⟨fun h => ?_, fun h => ?_⟩, fun v hv => ?_, fun v hv => ?_⟩
  · simp [thresholdPoint, h]
  · simp [thresholdPoint, Nat.not_lt.mpr h]
  · have : ¬ v > 255 := Nat.not_lt.mpr hv
    simp [thresholdPoint, this]
  · simp [thresholdPoint, hv]

/-- Witness for thresholdPoint_spec at cutoff 128 and pixels 200, 100, and
at the boundary cutoffs 255 and 0. -/
theorem thresholdPoint_spec_witness :
    ((128 : Nat) ≤ 255 ∧ (200 : Nat) ≤ 255 ∧ (200 : Nat) > 128 ∧
      thresholdPoint 128 200 = 255) ∧
    ((100 : Nat) ≤ 128 ∧ thresholdPoint 128 100 = 0) ∧
    ((7 : Nat) ≤ 255 ∧ thresholdPoint 255 7 = 0) ∧
    ((0 : Nat) < 7 ∧ thresholdPoint 0 7 = 255) :=
  ⟨⟨by decide, by decide, by decide,
      (thresholdPoint_spec.1 128 200 (by decide) (by decide)).1 (by decide)⟩,
   ⟨by decide, (thresholdPoint_spec.1 128 100 (by decide) (by decide)).2 (by decide)⟩,
   ⟨by decide, thresholdPoint_spec.2.1 7 (by decide)⟩,
   ⟨by decide, thresholdPoint_spec.2.2 7 (by decide)⟩⟩

/-- C7: the threshold is idempotent on pixel intensities: for every cutoff
c and every pixel value v in [0,255], applying it twice with the same
cutoff equals applying it once. -/
theorem thresholdPoint_idempotent (c v : Nat) (hv : v ≤ 255) :
    thresholdPoint c (thresholdPoint c v) = thresholdPoint c v := by
  unfold thresholdPoint
  by_cases h : v > c
  · have hc' : c < 255 := lt_of_lt_of_le h hv
    simp [h, hc']
  · simp [h]

/-- Witness for thresholdPoint_idempotent at cutoff 128, pixel 200. -/
theorem thresholdPoint_idempotent_witness :
    (200 : Nat) ≤ 255 ∧
      thresholdPoint 128 (thresholdPoint 128 200) = thresholdPoint 128 200 :=
  ⟨by decide, thresholdPoint_idempotent 128 200 (by decide)⟩

/-- C10: apply_threshold always returns a single-channel grayscale image,
every pixel of which is 0 or 255, with one output pixel per grayscale input
pixel; being a pure function of its arguments, it leaves the input image
value unmodified. -/
theorem apply_threshold_binary (img : PILImage) (t : Nat) :
    ∃ ps : List Nat, apply_threshold img t = PILImage.gray ps ∧
      (∀ p ∈ ps, p = 0 ∨ p = 255) ∧
      ps.length = (convertL img).length := by
  refine ⟨(convertL img).map (fun p => thresholdPoint t p), rfl, ?_, by simp⟩
  intro p hp
  rcases List.mem_map.mp hp with ⟨q, _, hq⟩
  unfold thresholdPoint at hq
  by_cases h : q > t
  · right; simp [h] at hq; omega
  · left; simp [h] at hq; omega

/-- Witness for apply_threshold_binary on a concrete RGB image at
cutoff 128. -/
theorem apply_threshold_binary_witness :
    ∃ ps : List Nat,
      apply_threshold (PILImage.rgb [(255, 0, 0), (200, 200, 200)]) 128 = PILImage.gray ps ∧
      (∀ p ∈ ps, p = 0 ∨ p = 255) ∧
      ps.length = (convertL (PILImage.rgb [(255, 0, 0), (200, 200, 200)])).length :=
  apply_threshold_binary (PILImage.rgb [(255, 0, 0), (200, 200, 200)]) 128

/-- Concrete request: CLI found, exit 0, output file written. -/
def reqCliOk : OcrRequest :=
  ⟨PILImage.gray [7], CliOutcome.ran ⟨0, "so", "se"⟩, some "hello",
    Except.ok (), fun _ => Except.error "a", fun _ => Except.error "b"⟩

/-- Concrete request: CLI found, exit 0, no output file. -/
def reqCliEmpty : OcrRequest :=
  ⟨PILImage.gray [7], CliOutcome.ran ⟨0, "so", "se"⟩, none,
    Except.ok (), fun _ => Except.error "a", fun _ => Except.error "b"⟩

/-- Concrete request: CLI found, non-zero exit. -/
def reqCliFail : OcrRequest :=
  ⟨PILImage.gray [7], CliOutcome.ran ⟨2, "so", "se"⟩, none,
    Except.ok (), fun _ => Except.error "a", fun _ => Except.error "b"⟩

/-- Concrete request: CLI missing, shape A raises, shape B succeeds. -/
def reqFallbackB : OcrRequest :=
  ⟨PILImage.gray [7], CliOutcome.notFound, none,
    Except.ok (), fun _ => Except.error "a", fun _ => Except.ok (Preds.single "z")⟩

/-- Concrete request: CLI missing, both shapes raise. -/
def reqFallbackFail : OcrRequest :=
  ⟨PILImage.gray [7], CliOutcome.notFound, none,
    Except.ok (), fun _ => Except.error "a", fun _ => Except.error "b"⟩

/-- C1: a zero-exit CLI run with an existing output file containing T
reports outcome cliSuccess T, displays exactly T, and never enters the
fallback. -/
theorem cli_success_reports_file_text (req : OcrRequest) (p : ProcResult) (T : String)
    (hcli : req.cli = CliOutcome.ran p) (hexit : p.exitCode = 0)
    (hout : req.outputFile = some T) :
    (runOcr req).outcome = Outcome.cliSuccess T ∧
    displayedText (runOcr req).outcome = some T ∧
    (runOcr req).fallbackAttempted = false := by
  unfold runOcr
  rw [hcli]
  simp [hexit, hout, displayedText]

/-- Witness for cli_success_reports_file_text at a concrete request whose
output file holds the text hello. -/
theorem cli_success_reports_file_text_witness :
    reqCliOk.cli = CliOutcome.ran ⟨0, "so", "se"⟩ ∧
    (0 : Nat) = 0 ∧
    reqCliOk.outputFile = some "hello" ∧
    ((runOcr reqCliOk).outcome = Outcome.cliSuccess "hello" ∧
     displayedText (runOcr reqCliOk).outcome = some "hello" ∧
     (runOcr reqCliOk).fallbackAttempted = false) :=
  ⟨rfl, rfl, rfl, cli_success_reports_file_text reqCliOk ⟨0, "so", "se"⟩ "hello" rfl rfl rfl⟩

/-- C2: a zero-exit CLI run with no output file reports engineRanEmpty
carrying the captured stdout and stderr, whatever they are, displays no
recognized text, and never enters the fallback. -/
theorem cli_empty_output_no_fallback (req : OcrRequest) (p : ProcResult)
    (hcli : req.cli = CliOutcome.ran p) (hexit : p.exitCode = 0)
    (hout : req.outputFile = none) :
    (runOcr req).outcome = Outcome.engineRanEmpty p.stdout p.stderr ∧
    (runOcr req).fallbackAttempted = false ∧
    displayedText (runOcr req).outcome = none := by
  unfold runOcr
  rw [hcli]
  simp [hexit, hout, displayedText]

/-- Witness for cli_empty_output_no_fallback at a concrete request. -/
theorem cli_empty_output_no_fallback_witness :
    reqCliEmpty.cli = CliOutcome.ran ⟨0, "so", "se"⟩ ∧
    (0 : Nat) = 0 ∧
    reqCliEmpty.outputFile = none ∧
    ((runOcr reqCliEmpty).outcome = Outcome.engineRanEmpty "so" "se" ∧
     (runOcr reqCliEmpty).fallbackAttempted = false ∧
     displayedText (runOcr reqCliEmpty).outcome = none) :=
  ⟨rfl, rfl, rfl, cli_empty_output_no_fallback reqCliEmpty ⟨0, "so", "se"⟩ rfl rfl rfl⟩

/-- C3: a non-zero CLI exit reports cliFailed carrying the captured stdout
and stderr and never enters the fallback; moreover the fallback is entered
only when the executable is missing. -/
theorem cli_nonzero_exit_no_fallback :
    (∀ (req : OcrRequest) (p : ProcResult), req.cli = CliOutcome.ran p →
      p.exitCode ≠ 0 →
      (runOcr req).outcome = Outcome.cliFailed p.stdout p.stderr ∧
      (runOcr req).fallbackAttempted = false) ∧
    (∀ req : OcrRequest, (runOcr req).fallbackAttempted = true →
      req.cli = CliOutcome.notFound) := by
  constructor
  · intro req p hcli hexit
    unfold runOcr
    rw [hcli]
    simp [hexit]
  · intro req h
    cases hc : req.cli with
    | ran p =>
      exfalso
      unfold runOcr at h
      rw [hc] at h
      by_cases he : p.exitCode = 0
      · cases ho : req.outputFile with
        | some t => rw [ho] at h; simp [he] at h
        | none => rw [ho] at h; simp [he] at h
      · simp [he] at h
    | notFound => rfl

/-- Witness for cli_nonzero_exit_no_fallback: a concrete exit-2 request
fails without fallback, and a concrete fallback-entering request had a
missing executable. -/
theorem cli_nonzero_exit_no_fallback_witness :
    reqCliFail.cli = CliOutcome.ran ⟨2, "so", "se"⟩ ∧
    (2 : Nat) ≠ 0 ∧
    ((runOcr reqCliFail).outcome = Outcome.cliFailed "so" "se" ∧
     (runOcr reqCliFail).fallbackAttempted = false) ∧
    (runOcr reqFallbackFail).fallbackAttempted = true ∧
    reqFallbackFail.cli = CliOutcome.notFound :=
  ⟨rfl, by decide, cli_nonzero_exit_no_fallback.1 reqCliFail ⟨2, "so", "se"⟩ rfl (by decide),
   rfl, cli_nonzero_exit_no_fallback.2 reqFallbackFail rfl⟩

/-- C4: with the executable missing and the API import and model load
succeeding, the fallback runs once: shape A receives the single-element
image list, shape B is called (with the same list) exactly when shape A
raises, a result from either shape is reported as fallback success, and
the normalisation joins list elements with newlines and otherwise takes
the string form directly. -/
theorem fallback_shape_order (req : OcrRequest)
    (hcli : req.cli = CliOutcome.notFound) (hsetup : req.apiSetup = Except.ok ()) :
    (runOcr req).fallbackAttempted = true ∧
    (runOcr req).shapeACall = some [req.image] ∧
    ((runOcr req).shapeBCall = some [req.image] ↔
      ∃ e, req.recognizeCall [req.image] = Except.error e) ∧
    (∀ ps, req.recognizeCall [req.image] = Except.ok ps →
      (runOcr req).outcome = Outcome.fallbackSuccess (normalizePreds ps)) ∧
    (∀ e ps, req.recognizeCall [req.image] = Except.error e →
      req.rpredCall [req.image] = Except.ok ps →
      (runOcr req).outcome = Outcome.fallbackSuccess (normalizePreds ps)) ∧
    (∀ strs, normalizePreds (Preds.list strs) = String.intercalate "\n" strs) ∧
    (∀ s, normalizePreds (Preds.single s) = s) := by
  have hrun : runOcr req = runFallback req := by unfold runOcr; rw [hcli]
  rw [hrun]
  unfold runFallback
  rw [hsetup]
  cases hA : req.recognizeCall [req.image] with
  | ok ps =>
    refine ⟨rfl, rfl, ?_, ?_, ?_, fun _ => rfl, fun _ => rfl⟩
    · simp
    · intro ps' h
      cases h
      rfl
    · intro e ps' h
      cases h
  | error e =>
    cases hB : req.rpredCall [req.image] with
    | ok ps =>
      refine ⟨rfl, rfl, ⟨fun _ => ⟨e, rfl⟩, fun _ => rfl⟩, ?_, ?_, fun _ => rfl, fun _ => rfl⟩
      · intro ps' h
        cases h
      · intro e' ps' _ h
        cases h
        rfl
    | error e2 =>
      refine ⟨rfl, rfl, ⟨fun _ => ⟨e, rfl⟩, fun _ => rfl⟩, ?_, ?_, fun _ => rfl, fun _ => rfl⟩
      · intro ps' h
        cases h
      · intro e' ps' _ h
        cases h

/-- Witness for fallback_shape_order at a concrete request where shape A
raises and shape B returns a single result. -/
theorem fallback_shape_order_witness :
    reqFallbackB.cli = CliOutcome.notFound ∧
    reqFallbackB.apiSetup = Except.ok () ∧
    ((runOcr reqFallbackB).fallbackAttempted = true ∧
     (runOcr reqFallbackB).shapeACall = some [reqFallbackB.image] ∧
     ((runOcr reqFallbackB).shapeBCall = some [reqFallbackB.image] ↔
       ∃ e, reqFallbackB.recognizeCall [reqFallbackB.image] = Except.error e) ∧
     (∀ ps, reqFallbackB.recognizeCall [reqFallbackB.image] = Except.ok ps →
       (runOcr reqFallbackB).outcome = Outcome.fallbackSuccess (normalizePreds ps)) ∧
     (∀ e ps, reqFallbackB.recognizeCall [reqFallbackB.image] = Except.error e →
       reqFallbackB.rpredCall [reqFallbackB.image] = Except.ok ps →
       (runOcr reqFallbackB).outcome = Outcome.fallbackSuccess (normalizePreds ps)) ∧
     (∀ strs, normalizePreds (Preds.list strs) = String.intercalate "\n" strs) ∧
     (∀ s, normalizePreds (Preds.single s) = s)) :=
  ⟨rfl, rfl, fallback_shape_order reqFallbackB rfl rfl⟩

/-- C5: when both fallback call shapes raise, the outcome is
fallbackUnavailable carrying the escaping exception message, no recognized
text is displayed, and the error display pairs the message with the
install guidance. -/
theorem fallback_both_fail_unavailable (req : OcrRequest) (e1 e2 : String)
    (hcli : req.cli = CliOutcome.notFound) (hsetup : req.apiSetup = Except.ok ())
    (hA : req.recognizeCall [req.image] = Except.error e1)
    (hB : req.rpredCall [req.image] = Except.error e2) :
    (runOcr req).outcome = Outcome.fallbackUnavailable e2 ∧
    displayedText (runOcr req).outcome = none ∧
    errorMessages (runOcr req).outcome =
      ["Failed to use Kraken Python API: " ++ e2, guidanceMsg] := by
  have hrun : runOcr req = runFallback req := by unfold runOcr; rw [hcli]
  rw [hrun]
  unfold runFallback
  rw [hsetup, hA, hB]
  exact ⟨rfl, rfl, rfl⟩

/-- Witness for fallback_both_fail_unavailable at a concrete request where
shape A raises a and shape B raises b. -/
theorem fallback_both_fail_unavailable_witness :
    reqFallbackFail.cli = CliOutcome.notFound ∧
    reqFallbackFail.apiSetup = Except.ok () ∧
    reqFallbackFail.recognizeCall [reqFallbackFail.image] = Except.error "a" ∧
    reqFallbackFail.rpredCall [reqFallbackFail.image] = Except.error "b" ∧
    ((runOcr reqFallbackFail).outcome = Outcome.fallbackUnavailable "b" ∧
     displayedText (runOcr reqFallbackFail).outcome = none ∧
     errorMessages (runOcr reqFallbackFail).outcome =
       ["Failed to use Kraken Python API: " ++ "b", guidanceMsg]) :=
  ⟨rfl, rfl, rfl, rfl,
    fallback_both_fail_unavailable reqFallbackFail "a" "b" rfl rfl rfl rfl⟩

/-- C8: the upload decode tries grayscale first, retries as RGB exactly
when the grayscale decode raises, and when both raise the run ends in the
RGB error with no bitmap shown, the OCR step unreachable, and the error
surfaced. -/
theorem decode_gray_first_rgb_retry (env : UploadEnv) :
    (∀ img, env.grayDecode = Except.ok img → decodeUpload env = Except.ok img) ∧
    (∀ e, env.grayDecode = Except.error e → decodeUpload env = env.rgbDecode) ∧
    (∀ e1 e2, env.grayDecode = Except.error e1 → env.rgbDecode = Except.error e2 →
      decodeUpload env = Except.error e2 ∧
      renderAfterDecode (decodeUpload env) = (none, false, some e2)) := by
  refine ⟨fun img h => ?_, fun e h => ?_, fun e1 e2 h1 h2 => ?_⟩
  · unfold decodeUpload
    rw [h]
  · unfold decodeUpload
    rw [h]
  · unfold decodeUpload
    rw [h1, h2]
    exact ⟨rfl, rfl⟩

/-- Witness for decode_gray_first_rgb_retry on an environment where both
decodes raise. -/
theorem decode_gray_first_rgb_retry_witness :
    (UploadEnv.mk (Except.error "bad gray") (Except.error "bad rgb")).grayDecode
        = Except.error "bad gray" ∧
    (UploadEnv.mk (Except.error "bad gray") (Except.error "bad rgb")).rgbDecode
        = Except.error "bad rgb" ∧
    (decodeUpload (UploadEnv.mk (Except.error "bad gray") (Except.error "bad rgb"))
        = Except.error "bad rgb" ∧
     renderAfterDecode
        (decodeUpload (UploadEnv.mk (Except.error "bad gray") (Except.error "bad rgb")))
        = (none, false, some "bad rgb")) :=
  ⟨rfl, rfl,
    (decode_gray_first_rgb_retry
        (UploadEnv.mk (Except.error "bad gray") (Except.error "bad rgb"))).2.2
      "bad gray" "bad rgb" rfl rfl⟩

/-- C9: after any Run-OCR interaction the workspace directory and the input
file exist, every path that existed before still exists, and a written
output file also persists: no branch deletes anything. -/
theorem workspace_never_deleted (req : OcrRequest) (fs : List String) :
    tmpdirPath ∈ (runOcrFS req fs).2 ∧
    inputPath ∈ (runOcrFS req fs).2 ∧
    (∀ p, p ∈ fs → p ∈ (runOcrFS req fs).2) ∧
    (∀ t, req.outputFile = some t → outputPath ∈ (runOcrFS req fs).2) := by
  unfold runOcrFS
  cases ho : req.outputFile with
  | some t =>
    refine ⟨by simp, by simp, fun p hp => by simp [hp], fun t' _ => by simp⟩
  | none =>
    refine ⟨by simp, by simp, fun p hp => by simp [hp], fun t' ht' => ?_⟩
    cases ht'

/-- Witness for workspace_never_deleted: a pre-existing path, the
workspace paths, and the written output file all exist after a concrete
successful run. -/
theorem workspace_never_deleted_witness :
    tmpdirPath ∈ (runOcrFS reqCliOk ["keep.txt"]).2 ∧
    "keep.txt" ∈ ["keep.txt"] ∧
    "keep.txt" ∈ (runOcrFS reqCliOk ["keep.txt"]).2 ∧
    reqCliOk.outputFile = some "hello" ∧
    outputPath ∈ (runOcrFS reqCliOk ["keep.txt"]).2 :=
  ⟨(workspace_never_deleted reqCliOk ["keep.txt"]).1,
   by simp,
   (workspace_never_deleted reqCliOk ["keep.txt"]).2.2.1 "keep.txt" (by simp),
   rfl,
   (workspace_never_deleted reqCliOk ["keep.txt"]).2.2.2 "hello" rfl⟩

end KrakenApp
